import Mathlib

/-!
Shallow embedding of the fylshr static-file server (Go) and proofs about its
request-classification, response-augmentation, TLS-credential-generation and
address-discovery logic.

The repository has two near-duplicate program variants; the embedding follows
the more complete variant (src/unnamed/part_000), whose handler, isMedia,
getLocalAddr, generateTLSConfig and style constant subsume those of
src/main.go.

External collaborators (Go standard library) that the classified behaviour
depends on are modelled as explicit parameters or oracle inputs:
  - mime.TypeByExtension is a parameter tbe : String → String;
  - the Unicode printability table behind strconv.IsPrint is a parameter for
    non-ASCII runes (for ASCII, Go's rule is exactly 0x20 ≤ r ≤ 0x7E and is
    embedded directly);
  - crypto randomness and x509.CreateCertificate are oracle inputs carrying a
    Go-style (value, error) pair.
Go strings indexed at their last byte compare equal to the byte '/' exactly
when the last character of the (valid UTF-8) string is '/', so paths are
modelled as Lean strings and the last-byte test as a last-character test.
-/

/-- Go-style result of a fallible call: the returned value together with the
returned error (`none` = nil error). Call sites that use `_` for the error
simply never read the `err` field. -/
structure GoResult (α : Type) where
  val : α
  err : Option String
  deriving Repr, DecidableEq

/-- Embedding of Go `path/filepath.Ext` (on '/'-separated paths): scan the
path backwards; stop at a path separator with result ""; at a dot return the
suffix starting at that dot. The first argument accumulates the characters
already scanned past (in forward order). -/
def goExtAux (acc : List Char) : List Char → String
  | [] => ""
  | c :: rest =>
    if c = '/' then ""
    else if c = '.' then String.mk (c :: acc)
    else goExtAux (c :: acc) rest

/-- Go `filepath.Ext path`: the file name extension of the final element,
beginning at the final dot, or "" if there is none. -/
def goExt (p : String) : String :=
  goExtAux [] p.data.reverse

/-- Embedding of Go `path.Base`: "" maps to ".", trailing slashes are
stripped, the suffix after the last remaining slash is returned, and a
path of only slashes maps to "/". -/
def goBase (p : String) : String :=
  if p = "" then "."
  else
    let stripped := p.data.reverse.dropWhile (fun c => c = '/')
    if stripped = [] then "/"
    else String.mk ((stripped.takeWhile (fun c => c ≠ '/')).reverse)

/-- The fixed classification table of `isMedia` (`part_000` lines 105-134):
the MIME types whose files are served with a forced-download header. -/
def mediaTypes : List String :=
  [ "image/jpeg",
    "image/png",
    "image/gif",
    "video/mp4",
    "video/mpeg",
    "video/webm",
    "video/quicktime",
    "application/pdf",
    "application/msword",
    "application/vnd.openxmlformats-officedocument.wordprocessingml.document",
    "application/vnd.ms-powerpoint",
    "application/vnd.openxmlformats-officedocument.presentationml.presentation",
    "application/vnd.ms-excel",
    "application/vnd.openxmlformats-officedocument.spreadsheetml.sheet",
    "audio/mpeg",
    "audio/wav",
    "audio/ogg",
    "audio/midi",
    "application/ogg",
    "application/x-7z-compressed",
    "application/zip",
    "application/x-rar-compressed",
    "application/x-tar",
    "application/x-bzip2",
    "application/x-gzip",
    "application/x-zip-compressed",
    "application/x-tar-gz",
    "application/x-compressed-tar" ]

/-- Embedding of `isMedia` (`part_000` lines 101-139). The Go `switch` over
string cases is membership in `mediaTypes`; `mime.TypeByExtension` is the
parameter `tbe`. -/
def isMedia (tbe : String → String) (filename : String) : Bool :=
  let extension := goExt filename
  let mimeType := tbe extension
  mediaTypes.contains mimeType

/-- Go `strconv.IsPrint` restricted as used by `strconv.Quote`: for ASCII
runes the printable range is exactly 0x20..0x7E; for non-ASCII runes the
Unicode table is the external parameter `np`. -/
def isPrintChar (np : Char → Bool) (c : Char) : Bool :=
  if c.toNat < 0x80 then decide (0x20 ≤ c.toNat ∧ c.toNat ≤ 0x7E) else np c

/-- The four lowercase hex digits of a code point below 0x10000, most
significant first (Go writes `\u` escapes this way). -/
def hex4 (n : Nat) : List Char :=
  [ Nat.digitChar (n / 4096 % 16), Nat.digitChar (n / 256 % 16),
    Nat.digitChar (n / 16 % 16), Nat.digitChar (n % 16) ]

/-- The eight lowercase hex digits of a code point, most significant first
(Go writes `\U` escapes this way). -/
def hex8 (n : Nat) : List Char :=
  [ Nat.digitChar (n / 16 ^ 7 % 16), Nat.digitChar (n / 16 ^ 6 % 16),
    Nat.digitChar (n / 16 ^ 5 % 16), Nat.digitChar (n / 16 ^ 4 % 16),
    Nat.digitChar (n / 4096 % 16), Nat.digitChar (n / 256 % 16),
    Nat.digitChar (n / 16 % 16), Nat.digitChar (n % 16) ]

/-- Embedding of `strconv.appendEscapedRune` with quote `"`, `ASCIIonly` and
`graphicOnly` false, per rune: quote and backslash are backslash-escaped;
printable runes pass through; the named control escapes, then `\x`, `\u`,
`\U` hex escapes. (Lean characters are always valid runes, so the
invalid-rune branch is unreachable and omitted.) -/
def goQuoteRune (np : Char → Bool) (c : Char) : List Char :=
  if c = '"' ∨ c = '\\' then ['\\', c]
  else if isPrintChar np c then [c]
  else if c = '\x07' then ['\\', 'a']
  else if c = '\x08' then ['\\', 'b']
  else if c = '\x0C' then ['\\', 'f']
  else if c = '\n' then ['\\', 'n']
  else if c = '\r' then ['\\', 'r']
  else if c = '\t' then ['\\', 't']
  else if c = '\x0B' then ['\\', 'v']
  else if c.toNat < 0x20 ∨ c.toNat = 0x7F then
    '\\' :: 'x' :: [Nat.digitChar (c.toNat / 16), Nat.digitChar (c.toNat % 16)]
  else if c.toNat < 0x10000 then '\\' :: 'u' :: hex4 c.toNat
  else '\\' :: 'U' :: hex8 c.toNat

/-- Embedding of Go `strconv.Quote`: a double quote, each rune escaped, and a
closing double quote. -/
def goQuote (np : Char → Bool) (s : String) : String :=
  String.mk ('"' :: (s.data.map (goQuoteRune np)).flatten ++ ['"'])

/-- The Content-Disposition value built by the handler
(`fmt.Sprintf("attachment; filename=%s", strconv.Quote(filename))`,
`part_000` line 35). -/
def dispositionValue (np : Char → Bool) (filename : String) : String :=
  "attachment; filename=" ++ goQuote np filename

/-- The constant `style` fragment (`part_000` lines 181-224) appended to
directory-listing responses. -/
def style : String :=
  "\n<style>\n  body \x7b\n    background: #111;\n    color: #def;\n  \x7d\n\n  *, *::before, *::after \x7b\n    font: 20px JetBrainsMono, mono, Menlo-Regular;\n    box-sizing: border-box;\n\n    scrollbar-width: thin;\n    scrollbar-color: #aef #0003;\n  \x7d\n  *::-webkit-scrollbar-thumb \x7b\n    background: #aef;\n    border-radius: 20rem;\n  \x7d\n  *::-webkit-scrollbar-track \x7b\n    background: #0003;\n  \x7d\n  *::-webkit-scrollbar \x7b\n    width: 3rem;\n  \x7d\n\n  pre \x7b\n    margin: 0;\n    padding: 0.5rem;\n  \x7d\n\n  a \x7b\n    color: #abf;\n    font-weight: bold;\n  \x7d\n\n  a:visited \x7b\n    color: #fba;\n  \x7d\n\n  a:hover \x7b\n    color: #aef;\n  \x7d\n</style>\n"

/-- The observable outcome of one handler invocation: the Content-Disposition
header (if set) and the final response body. -/
structure Response where
  contentDisposition : Option String
  body : String
  deriving Repr, DecidableEq

/-- The handler's directory test `url[len(url)-1] == '/'` (`part_000` line 30)
on a non-empty path: Go compares the last byte with '/', which on valid UTF-8
holds exactly when the last character is '/'. -/
def isDirectoryRequest (url : String) : Bool :=
  url.back == '/'

/-- Embedding of the request handler (`part_000` lines 28-56). `url[len(url)-1]`
panics on the empty path, modelled as `none`. The delegated static file
server's output is the parameter `delegatedBody`; for a directory request the
handler appends `style` to it after delegation. -/
def handler (np : Char → Bool) (tbe : String → String) (delegatedBody : String)
    (url : String) : Option Response :=
  if url = "" then none
  else
    let isDir := isDirectoryRequest url
    let disposition : Option String :=
      if !isDir then
        let filename := goBase url
        if isMedia tbe filename then some (dispositionValue np filename) else none
      else none
    let body := if isDir then delegatedBody ++ style else delegatedBody
    some { contentDisposition := disposition, body := body }

/-- Embedding of one interface address as seen by `getLocalAddr`: whether the
`*net.IPNet` type assertion succeeds, whether the IP is loopback, whether it
has an IPv4 form, and its string rendering. -/
structure InterfaceAddr where
  isIPNet : Bool
  isLoopback : Bool
  isIPv4 : Bool
  ipString : String
  deriving Repr, DecidableEq

/-- The loop condition of `getLocalAddr` (`part_000` line 145). -/
def usableAddr (a : InterfaceAddr) : Bool :=
  a.isIPNet && !a.isLoopback && a.isIPv4

/-- The `for` loop of `getLocalAddr`: return the string of the first usable
address, if any. -/
def getLocalAddrLoop : List InterfaceAddr → Option String
  | [] => none
  | a :: rest => if usableAddr a then some a.ipString else getLocalAddrLoop rest

/-- Embedding of `getLocalAddr` (`part_000` lines 141-151). The outcome of
`net.InterfaceAddrs()` is the oracle input: an error, or an address list. -/
def getLocalAddr (res : Except String (List InterfaceAddr)) : String :=
  match res with
  | .error _ => "127.0.0.1"
  | .ok addrs =>
    match getLocalAddrLoop addrs with
    | some s => s
    | none => "127.0.0.1"

/-- Nanoseconds in one hour (`time.Hour` in Go's `time.Duration` units). -/
def nsPerHour : Nat := 3600 * 1000000000

/-- Go `x509.KeyUsageDigitalSignature` (bit 0). -/
def keyUsageDigitalSignature : Nat := 1

/-- Go `x509.KeyUsageKeyEncipherment` (bit 2). -/
def keyUsageKeyEncipherment : Nat := 4

/-- Go `x509.ExtKeyUsageServerAuth` (value 1 in the `iota` enumeration). -/
def extKeyUsageServerAuth : Nat := 1

/-- The exclusive bound `big.NewInt(1 << 62)` passed to `rand.Int`
(`part_000` line 160): serial numbers are drawn uniformly from
`[0, serialBound)`. -/
def serialBound : Nat := 1 <<< 62

/-- An ECDSA public key (opaque coordinates; only identity matters here). -/
structure PublicKey where
  x : Nat
  y : Nat
  deriving Repr, DecidableEq

/-- An ECDSA private key: its public part and the secret scalar. -/
structure PrivateKey where
  pub : PublicKey
  d : Nat
  deriving Repr, DecidableEq

/-- The `x509.Certificate` template fields set by `generateTLSConfig`
(`part_000` lines 161-168). Times are nanoseconds; `keyUsage` is the bit-flag
word; `extKeyUsage` the list of enumeration values. -/
structure CertTemplate where
  serialNumber : Nat
  subjectCommonName : String
  notBefore : Nat
  notAfter : Nat
  keyUsage : Nat
  extKeyUsage : List Nat
  deriving Repr, DecidableEq

/-- The arguments `generateTLSConfig` passes to `x509.CreateCertificate`
(after the entropy reader): certificate template, parent template, public key
to embed, signing private key. -/
structure CreateCertCall where
  template : CertTemplate
  parent : CertTemplate
  pub : PublicKey
  priv : PrivateKey
  deriving Repr, DecidableEq

/-- The model of `x509.CreateCertificate` as an external oracle: from the
arguments of the call to the DER bytes and error Go returns. -/
def CreateCertFn : Type :=
  CertTemplate → CertTemplate → PublicKey → PrivateKey → GoResult (List Nat)

/-- Go `tls.Certificate` as built at `part_000` lines 171-174: the DER chain
and the private key. -/
structure TLSCertificate where
  certificate : List (List Nat)
  privateKey : PrivateKey
  deriving Repr, DecidableEq

/-- Go `tls.Config` as built at `part_000` lines 176-178. -/
structure TLSConfig where
  certificates : List TLSCertificate
  deriving Repr, DecidableEq

/-- Everything observable about one run of `generateTLSConfig`: the returned
config, the template it built, and the exact `x509.CreateCertificate` call it
made. -/
structure GenResult where
  config : TLSConfig
  template : CertTemplate
  certCall : CreateCertCall
  deriving Repr, DecidableEq

/-- Embedding of `generateTLSConfig` (`part_000` lines 154-179). The three
fallible external calls appear as oracle inputs carrying Go (value, error)
pairs; the source binds every error to `_`, so only the `val` fields are
read — exactly as in the Go code. -/
def generateTLSConfig (keyGen : GoResult PrivateKey) (now : Nat)
    (serialGen : GoResult Nat) (createCertificate : CreateCertFn) : GenResult :=
  let priv := keyGen.val
  let notBefore := now
  let notAfter := notBefore + 365 * 24 * nsPerHour
  let serialNumber := serialGen.val
  let template : CertTemplate :=
    { serialNumber := serialNumber
      subjectCommonName := "localhost"
      notBefore := notBefore
      notAfter := notAfter
      keyUsage := keyUsageKeyEncipherment ||| keyUsageDigitalSignature
      extKeyUsage := [extKeyUsageServerAuth] }
  let derBytes := (createCertificate template template priv.pub priv).val
  let cert : TLSCertificate := { certificate := [derBytes], privateKey := priv }
  { config := { certificates := [cert] }
    template := template
    certCall := { template := template, parent := template, pub := priv.pub, priv := priv } }

/-- Scanner behind `escOk`: `esc` records whether the previous character was
an unconsumed backslash; a pending escape at the end of the list fails the
scan, an unescaped double quote fails it, everything else is consumed. -/
def escOkAux : Bool → List Char → Bool
  | esc, [] => !esc
  | true, _ :: rest => escOkAux false rest
  | false, c :: rest => if c = '"' then false else escOkAux (c = '\\') rest

/-- Specification-side predicate for C3: a character list is safely escaped
when every double quote in it is consumed by a preceding backslash (the
escape in turn consuming the character after it) and no trailing backslash
is left to escape the closing quote. -/
def escOk (l : List Char) : Bool :=
  escOkAux false l

/-- A file name of plain printable ASCII without double quotes or
backslashes: such names survive `strconv.Quote` verbatim. -/
def plainName (s : String) : Bool :=
  s.data.all (fun c => decide (0x20 ≤ c.toNat ∧ c.toNat ≤ 0x7E ∧ c ≠ '"' ∧ c ≠ '\\'))

/-- A sample extension-to-MIME mapping standing in for `mime.TypeByExtension`
in concrete evaluations. -/
def sampleTbe : String → String := fun ext =>
  if ext = ".pdf" then "application/pdf"
  else if ext = ".zip" then "application/zip"
  else if ext = ".txt" then "text/plain; charset=utf-8"
  else ""

/-- A concrete private key for concrete evaluations of `generateTLSConfig`. -/
def sampleKey : PrivateKey :=
  { pub := { x := 1, y := 2 }, d := 3 }

/-- A concrete successful `x509.CreateCertificate` oracle. -/
def sampleCreateCert : CreateCertFn := fun _ _ _ _ =>
  { val := [48, 130, 1, 0], err := none }

/-- A concrete failing `x509.CreateCertificate` oracle: it reports an error
and returns empty DER bytes. -/
def failingCreateCert : CreateCertFn := fun _ _ _ _ =>
  { val := [], err := some "certificate construction failed" }

example : goExt "report.pdf" = ".pdf" := by decide
example : goExt "archive.tar.gz" = ".gz" := by decide
example : goExt "dir.v2/file" = "" := by decide
example : goBase "/docs/report.pdf" = "report.pdf" := by decide
example : goBase "///" = "/" := by decide
example : goBase "" = "." := by decide
example : goQuote (fun _ => false) "a\"b" = "\"a\\\"b\"" := by decide
example : goQuote (fun _ => false) "a\\b" = "\"a\\\\b\"" := by decide
example : goQuote (fun _ => false) "a\nb" = "\"a\\nb\"" := by decide

theorem stringMk_append (l1 l2 : List Char) :
    String.mk (l1 ++ l2) = String.mk l1 ++ String.mk l2 := rfl

theorem string_data_append (a b : String) : (a ++ b).data = a.data ++ b.data := rfl

/-- C9: the handler's directory check indexes the request path at
`len(url) - 1` with no emptiness guard; it panics (modelled as `none`)
exactly on the empty request path and is total on every non-empty path. -/
theorem handler_total_iff_nonempty (np : Char → Bool) (tbe : String → String)
    (delegatedBody : String) : ∀ url : String,
    handler np tbe delegatedBody url = none ↔ url = "" := by
  intro url
  by_cases h : url = "" <;> simp [handler, h]

/-- C10: `isMedia` factors through `filepath.Ext`: two file names with the
same final-dot extension classify identically, whatever the
extension-to-MIME mapping. -/
theorem isMedia_depends_only_on_ext (tbe : String → String) (f g : String)
    (h : goExt f = goExt g) : isMedia tbe f = isMedia tbe g := by
  simp [isMedia, h]

theorem isMedia_depends_only_on_ext_witness :
    isMedia sampleTbe "report.pdf" = isMedia sampleTbe "b/slides backup.pdf" :=
  isMedia_depends_only_on_ext sampleTbe "report.pdf" "b/slides backup.pdf" (by decide)

/-- C2: on non-empty paths the handler classifies a request as a directory
request exactly when the final character is the path separator, and every
directory request gets no Content-Disposition header. -/
theorem directory_request_no_disposition (np : Char → Bool) (tbe : String → String)
    (delegatedBody url : String) (hne : url ≠ "") :
    (isDirectoryRequest url = true ↔ url.back = '/') ∧
    (isDirectoryRequest url = true →
      (handler np tbe delegatedBody url).map Response.contentDisposition = some none) := by
  constructor
  · simp [isDirectoryRequest]
  · intro hd
    simp [handler, hne, hd]

theorem directory_request_no_disposition_witness :
    (handler (fun _ => false) sampleTbe "listing" "/images/").map
      Response.contentDisposition = some none :=
  (directory_request_no_disposition (fun _ => false) sampleTbe "listing" "/images/"
    (by decide)).2 (by decide)

/-- C7: for a directory request the response body is exactly the delegated
static server's output followed by one copy of the `style` fragment; for a
non-directory request the body is exactly the delegated output, with no
fragment appended. -/
theorem style_appended_iff_directory (np : Char → Bool) (tbe : String → String)
    (delegatedBody url : String) (hne : url ≠ "") :
    (isDirectoryRequest url = true →
      (handler np tbe delegatedBody url).map Response.body =
        some (delegatedBody ++ style)) ∧
    (isDirectoryRequest url = false →
      (handler np tbe delegatedBody url).map Response.body = some delegatedBody) := by
  constructor
  · intro hd
    simp [handler, hne, hd]
  · intro hd
    simp [handler, hne, hd]

theorem style_appended_iff_directory_witness :
    (handler (fun _ => false) sampleTbe "listing" "/images/").map Response.body =
        some ("listing" ++ style) ∧
    (handler (fun _ => false) sampleTbe "listing" "/readme.txt").map Response.body =
        some "listing" :=
  ⟨(style_appended_iff_directory (fun _ => false) sampleTbe "listing" "/images/"
      (by decide)).1 (by decide),
   (style_appended_iff_directory (fun _ => false) sampleTbe "listing" "/readme.txt"
      (by decide)).2 (by decide)⟩

theorem getLocalAddrLoop_eq_find (l : List InterfaceAddr) :
    getLocalAddrLoop l = (l.find? usableAddr).map InterfaceAddr.ipString := by
  induction l with
  | nil => rfl
  | cons a rest ih =>
    by_cases h : usableAddr a <;> simp [getLocalAddrLoop, List.find?_cons, h, ih]

/-- C8: address discovery never fails the program: on an interface
enumeration error, and when no address passes the non-loopback IPv4 test,
`getLocalAddr` falls back to "127.0.0.1"; otherwise it returns the string of
the first address passing the test. -/
theorem getLocalAddr_first_or_loopback (res : Except String (List InterfaceAddr)) :
    (∀ e, res = .error e → getLocalAddr res = "127.0.0.1") ∧
    (∀ l, res = .ok l → l.find? usableAddr = none →
      getLocalAddr res = "127.0.0.1") ∧
    (∀ l a, res = .ok l → l.find? usableAddr = some a →
      getLocalAddr res = a.ipString) := by
  refine ⟨fun e he => ?_, fun l hl hnone => ?_, fun l a hl hsome => ?_⟩
  · subst he; rfl
  · subst hl
    simp [getLocalAddr, getLocalAddrLoop_eq_find, hnone]
  · subst hl
    simp [getLocalAddr, getLocalAddrLoop_eq_find, hsome]

theorem getLocalAddr_first_or_loopback_witness :
    getLocalAddr (.ok
      [{ isIPNet := true, isLoopback := true, isIPv4 := true, ipString := "127.0.0.1" },
       { isIPNet := true, isLoopback := false, isIPv4 := true, ipString := "192.168.0.7" }])
      = "192.168.0.7" :=
  (getLocalAddr_first_or_loopback (.ok
      [{ isIPNet := true, isLoopback := true, isIPv4 := true, ipString := "127.0.0.1" },
       { isIPNet := true, isLoopback := false, isIPv4 := true, ipString := "192.168.0.7" }])).2.2
    _ { isIPNet := true, isLoopback := false, isIPv4 := true, ipString := "192.168.0.7" }
    rfl (by decide)

/-- C5: every credential from `generateTLSConfig` is self-signed — the
certificate template is passed as its own parent to `x509.CreateCertificate`
and signed with the freshly generated private key whose public part it
embeds — with subject common name "localhost", a validity window of exactly
365 days, key usage digital-signature + key-encipherment, and extended key
usage server-authentication only. -/
theorem generateTLSConfig_certificate_fields (keyGen : GoResult PrivateKey)
    (now : Nat) (serialGen : GoResult Nat) (cc : CreateCertFn) :
    (generateTLSConfig keyGen now serialGen cc).certCall.parent =
      (generateTLSConfig keyGen now serialGen cc).certCall.template ∧
    (generateTLSConfig keyGen now serialGen cc).certCall.template =
      (generateTLSConfig keyGen now serialGen cc).template ∧
    (generateTLSConfig keyGen now serialGen cc).certCall.priv = keyGen.val ∧
    (generateTLSConfig keyGen now serialGen cc).certCall.pub = keyGen.val.pub ∧
    (generateTLSConfig keyGen now serialGen cc).template.subjectCommonName = "localhost" ∧
    (generateTLSConfig keyGen now serialGen cc).template.notAfter -
      (generateTLSConfig keyGen now serialGen cc).template.notBefore = 365 * 24 * nsPerHour ∧
    (generateTLSConfig keyGen now serialGen cc).template.keyUsage =
      (keyUsageKeyEncipherment ||| keyUsageDigitalSignature) ∧
    (generateTLSConfig keyGen now serialGen cc).template.extKeyUsage =
      [extKeyUsageServerAuth] ∧
    (generateTLSConfig keyGen now serialGen cc).config.certificates.map
      TLSCertificate.privateKey = [keyGen.val] := by
  refine ⟨rfl, rfl, rfl, rfl, rfl, ?_, rfl, rfl, rfl⟩
  simp [generateTLSConfig]

/-- C4 counterexample: with the key-generation, serial-generation and
certificate-construction oracles all reporting errors, `generateTLSConfig`
still returns a one-certificate TLS config built from the error-laden
results — the errors are bound to `_` in the source and discarded, so a
failure is not fatal to startup, contrary to the claim. -/
theorem generateTLSConfig_ignores_errors_counterexample :
    (failingCreateCert
        (generateTLSConfig { val := sampleKey, err := some "key generation failed" } 0
          { val := 0, err := some "serial generation failed" } failingCreateCert).certCall.template
        (generateTLSConfig { val := sampleKey, err := some "key generation failed" } 0
          { val := 0, err := some "serial generation failed" } failingCreateCert).certCall.parent
        sampleKey.pub sampleKey).err.isSome = true ∧
    (generateTLSConfig { val := sampleKey, err := some "key generation failed" } 0
        { val := 0, err := some "serial generation failed" }
        failingCreateCert).config.certificates =
      [{ certificate := [[]], privateKey := sampleKey }] :=
  ⟨rfl, rfl⟩

/-- C4 amended: failures of key generation, serial-number generation and
certificate construction are silently ignored: the result of
`generateTLSConfig` depends only on the values the fallible calls return,
never on their error components, and it always yields a config holding
exactly one certificate. -/
theorem generateTLSConfig_ignores_errors (v : PrivateKey) (e1 e2 : Option String)
    (now sv : Nat) (e3 e4 : Option String) (cc cc' : CreateCertFn)
    (hcc : ∀ t p pub priv, (cc t p pub priv).val = (cc' t p pub priv).val) :
    generateTLSConfig { val := v, err := e1 } now { val := sv, err := e3 } cc =
      generateTLSConfig { val := v, err := e2 } now { val := sv, err := e4 } cc' ∧
    (generateTLSConfig { val := v, err := e1 } now { val := sv, err := e3 }
        cc).config.certificates.length = 1 := by
  constructor
  · simp [generateTLSConfig, hcc]
  · rfl

theorem generateTLSConfig_ignores_errors_witness :
    generateTLSConfig { val := sampleKey, err := some "key generation failed" } 5
        { val := 7, err := some "no entropy" } sampleCreateCert =
      generateTLSConfig { val := sampleKey, err := none } 5
        { val := 7, err := none } sampleCreateCert :=
  (generateTLSConfig_ignores_errors sampleKey (some "key generation failed") none 5 7
    (some "no entropy") none sampleCreateCert sampleCreateCert
    (fun _ _ _ _ => rfl)).1

/-- C6 counterexample: `rand.Int(rand.Reader, big.NewInt(1 << 62))` draws
uniformly from `[0, 2^62)`, so 0 is a possible serial number: it lies in the
sampling range and the resulting certificate's serial number is not
positive, refuting "always > 0". -/
theorem serialNumber_zero_possible :
    0 < serialBound ∧
    ¬ 0 < (generateTLSConfig { val := sampleKey, err := none } 0
        { val := 0, err := none } sampleCreateCert).template.serialNumber := by
  refine ⟨by decide, ?_⟩
  simp [generateTLSConfig]

/-- C6 amended: the serial number equals the value drawn from the range
`[0, serialBound)` with `serialBound = 2^62` — a sampling range of exactly
`2^62` values (at least 62 bits of randomness) — so every serial number is
below `2^62`, but it may be 0 and is not guaranteed positive. -/
theorem serialNumber_range (keyGen : GoResult PrivateKey) (now : Nat)
    (s : Nat) (e : Option String) (cc : CreateCertFn) (h : s < serialBound) :
    (generateTLSConfig keyGen now { val := s, err := e } cc).template.serialNumber = s ∧
    (generateTLSConfig keyGen now { val := s, err := e } cc).template.serialNumber < 2 ^ 62 ∧
    serialBound = 2 ^ 62 := by
  refine ⟨rfl, ?_, by decide⟩
  have hs : serialBound = 2 ^ 62 := by decide
  simpa [generateTLSConfig, hs] using h

theorem escOk_esc (c : Char) (l : List Char) : escOk ('\\' :: c :: l) = escOk l := by
  simp [escOk, escOkAux]

theorem escOk_cons (c : Char) (l : List Char) (h1 : c ≠ '\\') (h2 : c ≠ '"') :
    escOk (c :: l) = escOk l := by
  simp [escOk, escOkAux, h1, h2]

theorem escOk_digit_cons (n : Nat) (h : n < 16) :
    ∀ l : List Char, escOk (Nat.digitChar n :: l) = escOk l := by
  intro l
  interval_cases n <;> exact escOk_cons _ l (by decide) (by decide)

theorem escOk_goQuoteRune (np : Char → Bool) (c : Char) (l : List Char) :
    escOk (goQuoteRune np c ++ l) = escOk l := by
  have hmod : ∀ n : Nat, n % 16 < 16 := fun n => Nat.mod_lt _ (by norm_num)
  unfold goQuoteRune
  by_cases h1 : c = '"' ∨ c = '\\'
  · rw [if_pos h1]
    exact escOk_esc c l
  · rw [if_neg h1]
    have hq : c ≠ '"' := fun hc => h1 (Or.inl hc)
    have hb : c ≠ '\\' := fun hc => h1 (Or.inr hc)
    by_cases h2 : isPrintChar np c = true
    · rw [if_pos h2]
      exact escOk_cons c l hb hq
    · rw [if_neg h2]
      by_cases h3 : c = '\x07'
      · rw [if_pos h3]; exact escOk_esc 'a' l
      rw [if_neg h3]
      by_cases h4 : c = '\x08'
      · rw [if_pos h4]; exact escOk_esc 'b' l
      rw [if_neg h4]
      by_cases h5 : c = '\x0C'
      · rw [if_pos h5]; exact escOk_esc 'f' l
      rw [if_neg h5]
      by_cases h6 : c = '\n'
      · rw [if_pos h6]; exact escOk_esc 'n' l
      rw [if_neg h6]
      by_cases h7 : c = '\r'
      · rw [if_pos h7]; exact escOk_esc 'r' l
      rw [if_neg h7]
      by_cases h8 : c = '\t'
      · rw [if_pos h8]; exact escOk_esc 't' l
      rw [if_neg h8]
      by_cases h9 : c = '\x0B'
      · rw [if_pos h9]; exact escOk_esc 'v' l
      rw [if_neg h9]
      by_cases h10 : c.toNat < 0x20 ∨ c.toNat = 0x7F
      · rw [if_pos h10]
        have hdiv : c.toNat / 16 < 16 := by
          rcases h10 with h | h <;> omega
        simp only [List.cons_append, List.nil_append]
        rw [escOk_esc, escOk_digit_cons _ hdiv, escOk_digit_cons _ (hmod _)]
      rw [if_neg h10]
      by_cases h11 : c.toNat < 0x10000
      · rw [if_pos h11]
        simp only [hex4, List.cons_append, List.nil_append]
        rw [escOk_esc, escOk_digit_cons _ (hmod _), escOk_digit_cons _ (hmod _),
          escOk_digit_cons _ (hmod _), escOk_digit_cons _ (hmod _)]
      rw [if_neg h11]
      simp only [hex8, List.cons_append, List.nil_append]
      rw [escOk_esc, escOk_digit_cons _ (hmod _), escOk_digit_cons _ (hmod _),
        escOk_digit_cons _ (hmod _), escOk_digit_cons _ (hmod _),
        escOk_digit_cons _ (hmod _), escOk_digit_cons _ (hmod _),
        escOk_digit_cons _ (hmod _), escOk_digit_cons _ (hmod _)]

theorem escOk_quoted (np : Char → Bool) (s : List Char) :
    ∀ l, escOk ((s.map (goQuoteRune np)).flatten ++ l) = escOk l := by
  induction s with
  | nil => intro l; simp
  | cons c rest ih =>
    intro l
    simp only [List.map_cons, List.flatten_cons, List.append_assoc]
    rw [escOk_goQuoteRune]
    exact ih l

/-- C3: whatever the file name, the Content-Disposition value built by the
handler is `attachment; filename=` followed by a double-quoted body in which
every embedded double quote is backslash-escaped and no dangling backslash
can escape the closing quote — the quoted-string syntax cannot be broken. -/
theorem dispositionValue_balanced (np : Char → Bool) (filename : String) :
    ∃ body : List Char,
      dispositionValue np filename =
        "attachment; filename=" ++ String.mk ('"' :: body ++ ['"']) ∧
      escOk body = true := by
  refine ⟨(filename.data.map (goQuoteRune np)).flatten, rfl, ?_⟩
  have h := escOk_quoted np filename.data []
  simpa [escOk] using h

theorem goQuoteRune_plain (np : Char → Bool) (c : Char)
    (h : 0x20 ≤ c.toNat ∧ c.toNat ≤ 0x7E ∧ c ≠ '"' ∧ c ≠ '\\') :
    goQuoteRune np c = [c] := by
  obtain ⟨h1, h2, h3, h4⟩ := h
  have hne : ¬(c = '"' ∨ c = '\\') := by
    rintro (hc | hc)
    · exact h3 hc
    · exact h4 hc
  have hp : isPrintChar np c = true := by
    unfold isPrintChar
    rw [if_pos (by omega)]
    exact decide_eq_true ⟨h1, h2⟩
  simp [goQuoteRune, hne, hp]

theorem flatten_quote_plain (np : Char → Bool) : ∀ l : List Char,
    (∀ c ∈ l, 0x20 ≤ c.toNat ∧ c.toNat ≤ 0x7E ∧ c ≠ '"' ∧ c ≠ '\\') →
    (l.map (goQuoteRune np)).flatten = l := by
  intro l
  induction l with
  | nil => intro _; rfl
  | cons c rest ih =>
    intro h
    simp only [List.map_cons, List.flatten_cons]
    rw [goQuoteRune_plain np c (h c (by simp)), ih (fun x hx => h x (by simp [hx]))]
    rfl

theorem goQuote_plain (np : Char → Bool) (s : String) (h : plainName s = true) :
    goQuote np s = "\"" ++ s ++ "\"" := by
  have hall : ∀ c ∈ s.data, 0x20 ≤ c.toNat ∧ c.toNat ≤ 0x7E ∧ c ≠ '"' ∧ c ≠ '\\' := by
    intro c hc
    have hx := List.all_eq_true.mp h c hc
    exact of_decide_eq_true hx
  unfold goQuote
  rw [flatten_quote_plain np s.data hall]
  cases s with
  | mk data => rfl

/-- C1: on a non-empty, non-directory request path whose basename's extension
maps into the classification table, the handler sets exactly the header
`Content-Disposition: attachment; filename=` followed by the quoted basename
(for a plain ASCII basename free of quotes and backslashes this is literally
`"basename"` with the basename matching the final path segment), and when the
extension maps to an unlisted or unknown MIME type it sets no
Content-Disposition header. -/
theorem forced_download_header (np : Char → Bool) (tbe : String → String)
    (delegatedBody url : String) (hne : url ≠ "") (hnd : url.back ≠ '/') :
    (mediaTypes.contains (tbe (goExt (goBase url))) = true →
      handler np tbe delegatedBody url =
        some ⟨some ("attachment; filename=" ++ goQuote np (goBase url)), delegatedBody⟩ ∧
      (plainName (goBase url) = true →
        goQuote np (goBase url) = "\"" ++ goBase url ++ "\"")) ∧
    (mediaTypes.contains (tbe (goExt (goBase url))) = false →
      handler np tbe delegatedBody url = some ⟨none, delegatedBody⟩) := by
  have hdir : isDirectoryRequest url = false := by
    simp [isDirectoryRequest, beq_eq_false_iff_ne, hnd]
  constructor
  · intro hmedia
    have hm : tbe (goExt (goBase url)) ∈ mediaTypes := by simpa using hmedia
    constructor
    · simp [handler, hne, hdir, isMedia, dispositionValue, hm]
    · intro hplain
      exact goQuote_plain np (goBase url) hplain
  · intro hmedia
    have hm : tbe (goExt (goBase url)) ∉ mediaTypes := by simpa using hmedia
    simp [handler, hne, hdir, isMedia, dispositionValue, hm]

theorem forced_download_header_witness :
    handler (fun _ => false) sampleTbe "listing" "/docs/report.pdf" =
      some ⟨some "attachment; filename=\"report.pdf\"", "listing"⟩ := by
  have h := (forced_download_header (fun _ => false) sampleTbe "listing" "/docs/report.pdf"
      (by decide) (by decide)).1 (by decide)
  rw [h.1, h.2 (by decide)]
  decide

theorem serialNumber_range_witness :
    (generateTLSConfig { val := sampleKey, err := none } 0
        { val := 1, err := none } sampleCreateCert).template.serialNumber = 1 ∧
    (generateTLSConfig { val := sampleKey, err := none } 0
        { val := 1, err := none } sampleCreateCert).template.serialNumber < 2 ^ 62 ∧
    serialBound = 2 ^ 62 :=
  serialNumber_range { val := sampleKey, err := none } 0 1 none sampleCreateCert
    (by decide)
